import Mathlib

/-!
# Verification of the notifly-mcp-server HTTP transport layer

Shallow embedding of `src/http-server.ts`: the message classifiers
(`isInitializeRequest`, `isRequest`, `isNotification`, `isResponse`),
the per-session `StreamableHttpTransport` (outbound `send`, queue flush on
`attachResponse`, the single-slot pending-request handler), the session
registry (a JS `Map` from session id to transport), the security middleware
(origin validation), and the `POST /mcp` endpoint handler.

JavaScript values are modelled by the inductive `JsValue`; machine details
that the code never relies on (NaN, prototype chains, reference identity of
objects) are outside the model.  The protocol engine (`createMcpServer`) is
an external collaborator: its reaction to an inbound message is passed to
the handler as the list of outbound messages it produces via the
transport's `send`.
-/

mutual

/-- A JavaScript/JSON value as handled by the server.  `undefined` is a
first-class value so that `msg.id !== undefined` tests are expressible.
Numbers are modelled as integers (the code only compares fields against
`undefined` and string literals, never arithmetically). -/
inductive JsValue where
  | undefined : JsValue
  | null : JsValue
  | bool : Bool → JsValue
  | num : Int → JsValue
  | str : String → JsValue
  | obj : JsFields → JsValue
  | arr : JsElems → JsValue
deriving Repr, DecidableEq

/-- The ordered own fields of a JavaScript object. -/
inductive JsFields where
  | nil : JsFields
  | cons : String → JsValue → JsFields → JsFields
deriving Repr, DecidableEq

/-- The elements of a JavaScript array. -/
inductive JsElems where
  | nil : JsElems
  | cons : JsValue → JsElems → JsElems
deriving Repr, DecidableEq

end

/-- Convenience constructor for object literals. -/
def jsObj (l : List (String × JsValue)) : JsValue :=
  .obj (l.foldr (fun p fs => .cons p.1 p.2 fs) .nil)

namespace JsValue

/-- JavaScript truthiness: `undefined`, `null`, `false`, `0`, `""` are falsy;
objects and arrays are always truthy. -/
def truthy : JsValue → Bool
  | .undefined => false
  | .null => false
  | .bool b => b
  | .num n => decide (n ≠ 0)
  | .str s => decide (s ≠ "")
  | .obj _ => true
  | .arr _ => true

/-- `typeof v === "string"`. -/
def isStr : JsValue → Bool
  | .str _ => true
  | _ => false

end JsValue

/-- First field with the given name, `undefined` when absent. -/
def JsFields.find : JsFields → String → JsValue
  | .nil, _ => .undefined
  | .cons k v rest, key => if k = key then v else JsFields.find rest key

/-- Property access `v.k` on a value that is not `null`/`undefined`:
yields the field of an object, `undefined` for a missing field and for
every non-object receiver (the named fields used by the server do not
exist on primitives or arrays). -/
def getField : JsValue → String → JsValue
  | .obj fs, k => fs.find k
  | _, _ => .undefined

/-- Property access with JavaScript's throwing semantics: `v.k` throws a
`TypeError` when `v` is `null` or `undefined`, otherwise returns `getField`.
Used to show the classifiers are total (never throw) for arbitrary input. -/
def getFieldE : JsValue → String → Except String JsValue
  | .undefined, _ => .error "TypeError: cannot read properties of undefined"
  | .null, _ => .error "TypeError: cannot read properties of null"
  | v, k => .ok (getField v k)

/-! ## Message classifiers (`http-server.ts` lines 287-301) -/

/-- `function isInitializeRequest(msg) { return msg && msg.method === "initialize"; }` -/
def isInitializeRequest (msg : JsValue) : Bool :=
  msg.truthy && decide (getField msg "method" = .str "initialize")

/-- `function isRequest(msg) { return msg && typeof msg.method === "string" && msg.id !== undefined; }` -/
def isRequest (msg : JsValue) : Bool :=
  msg.truthy && (getField msg "method").isStr && decide (getField msg "id" ≠ .undefined)

/-- `function isNotification(msg) { return msg && typeof msg.method === "string" && msg.id === undefined; }` -/
def isNotification (msg : JsValue) : Bool :=
  msg.truthy && (getField msg "method").isStr && decide (getField msg "id" = .undefined)

/-- `function isResponse(msg) { return msg && (msg.result !== undefined || msg.error !== undefined) && msg.id !== undefined; }` -/
def isResponse (msg : JsValue) : Bool :=
  msg.truthy
    && (decide (getField msg "result" ≠ .undefined) || decide (getField msg "error" ≠ .undefined))
    && decide (getField msg "id" ≠ .undefined)

/-! The same classifiers under JavaScript evaluation semantics, where
property access may throw: `&&` short-circuits, so the leading `msg`
truthiness guard is what protects every field access. -/

/-- `isInitializeRequest` with throwing property access. -/
def isInitializeRequestE (msg : JsValue) : Except String Bool :=
  if msg.truthy = false then .ok false
  else do
    let m ← getFieldE msg "method"
    pure (decide (m = .str "initialize"))

/-- `isRequest` with throwing property access. -/
def isRequestE (msg : JsValue) : Except String Bool :=
  if msg.truthy = false then .ok false
  else do
    let m ← getFieldE msg "method"
    if m.isStr = false then pure false
    else do
      let i ← getFieldE msg "id"
      pure (decide (i ≠ .undefined))

/-- `isNotification` with throwing property access. -/
def isNotificationE (msg : JsValue) : Except String Bool :=
  if msg.truthy = false then .ok false
  else do
    let m ← getFieldE msg "method"
    if m.isStr = false then pure false
    else do
      let i ← getFieldE msg "id"
      pure (decide (i = .undefined))

/-- `isResponse` with throwing property access. -/
def isResponseE (msg : JsValue) : Except String Bool :=
  if msg.truthy = false then .ok false
  else do
    let r ← getFieldE msg "result"
    let e ← getFieldE msg "error"
    if (decide (r ≠ .undefined) || decide (e ≠ .undefined)) = false then pure false
    else do
      let i ← getFieldE msg "id"
      pure (decide (i ≠ .undefined))

/-! ## Session transport (`StreamableHttpTransport`, lines 78-169) -/

/-- The state of an attached SSE response (`Response` in Express).
`written` records the SSE frames flushed so far, in order: `none` is the
empty priming event (`data: `), `some m` a frame whose `data:` is the JSON
encoding of message `m`.  The generated `id:` uuid of each frame is
environmental and not modelled. -/
structure SinkState where
  writableEnded : Bool
  written : List (Option JsValue)
deriving Repr, DecidableEq

/-- Mutable state of one `StreamableHttpTransport`.  The pending-request
handler is a one-shot callback installed by the POST handler; since the
resolved message is returned explicitly by `send`, a `Bool` slot suffices. -/
structure TransportState where
  sessionId : String
  currentResponse : Option SinkState
  messageQueue : List JsValue
  pendingInstalled : Bool
deriving Repr, DecidableEq

/-- `new StreamableHttpTransport(sessionId)`. -/
def TransportState.new (sid : String) : TransportState :=
  { sessionId := sid, currentResponse := none, messageQueue := [], pendingInstalled := false }

/-- Where one outbound message ended up. -/
inductive SendOutcome where
  | toPending : JsValue → SendOutcome
  | toSink : SendOutcome
  | queued : SendOutcome
deriving Repr, DecidableEq

/-- `async send(message)` (lines 102-132): pending handler first (consume
and clear the slot), else write one SSE frame to an attached, still-open
response, else push onto the message queue.  The commented-out
close-on-response block in the source has no effect and is not modelled. -/
def send (t : TransportState) (m : JsValue) : TransportState × SendOutcome :=
  if t.pendingInstalled then
    ({ t with pendingInstalled := false }, .toPending m)
  else
    match t.currentResponse with
    | some s =>
      if s.writableEnded = false then
        ({ t with currentResponse := some { s with written := s.written ++ [some m] } }, .toSink)
      else
        ({ t with messageQueue := t.messageQueue ++ [m] }, .queued)
    | none => ({ t with messageQueue := t.messageQueue ++ [m] }, .queued)

/-- The `while (this._messageQueue.length > 0)` loop of `attachResponse`
(lines 150-155): shift the head of the queue and `send` it.  Each iteration
that reaches the pending handler or an open sink consumes its message, so
the initial queue length is enough fuel for every terminating run of the
source loop; when the attached response is already ended the source loop
re-queues forever (it never terminates), which the fuel cuts off. -/
def flushLoop : Nat → TransportState → TransportState
  | 0, t => t
  | fuel + 1, t =>
    match t.messageQueue with
    | [] => t
    | m :: rest => flushLoop fuel (send { t with messageQueue := rest } m).1

/-- `attachResponse(res)` (lines 146-156): bind the sink, then flush the
queued messages through `send`. -/
def attachResponse (t : TransportState) (res : SinkState) : TransportState :=
  let t1 := { t with currentResponse := some res }
  flushLoop t1.messageQueue.length t1

/-- `handleMessage` forwards the inbound message to the protocol engine
(`_onmessage`, registered by `server.connect`).  The engine's reaction is
the list of outbound messages it produces via `send`, folded here in
order; the outcomes record where each one went. -/
def runEngine (t : TransportState) : List JsValue → TransportState × List SendOutcome
  | [] => (t, [])
  | m :: ms =>
    let r := send t m
    let rest := runEngine r.1 ms
    (rest.1, r.2 :: rest.2)

/-- The message that resolved the pending-request promise: the first
outbound message passed to the pending handler, if any. -/
def resolvedMessage : List SendOutcome → Option JsValue
  | [] => none
  | .toPending m :: _ => some m
  | _ :: rest => resolvedMessage rest

/-! ## Session registry (`const sessions = new Map(...)`, line 76) -/

/-- `sessions.get(sid)` over the registry as an ordered association list. -/
def sessionsGet : List (String × TransportState) → String → Option TransportState
  | [], _ => none
  | (k, v) :: rest, sid => if k = sid then some v else sessionsGet rest sid

/-- `sessions.set(sid, t)`: JS `Map` semantics — replace in place when the
key exists, append otherwise. -/
def sessionsSet : List (String × TransportState) → String → TransportState → List (String × TransportState)
  | [], sid, t => [(sid, t)]
  | (k, v) :: rest, sid, t =>
    if k = sid then (sid, t) :: rest else (k, v) :: sessionsSet rest sid t

/-! ## Security middleware (lines 13-53) -/

/-- Splitting accumulator for `splitComma`: the reversed characters of the
current piece. -/
def splitCommaAux : List Char → List Char → List String
  | [], acc => [String.mk acc.reverse]
  | c :: rest, acc =>
    if c = ',' then String.mk acc.reverse :: splitCommaAux rest []
    else splitCommaAux rest (c :: acc)

/-- JavaScript `s.split(',')`: every maximal comma-free piece, in order,
empty pieces included (`"".split(',')` is `[""]`). -/
def splitComma (s : String) : List String := splitCommaAux s.toList []

/-- `process.env.ALLOWED_ORIGINS ? process.env.ALLOWED_ORIGINS.split(',') : []`:
an unset or empty variable yields the empty list. -/
def parseAllowedOrigins : Option String → List String
  | none => []
  | some s => if s = "" then [] else splitComma s

/-- The JSON-RPC-shaped 403 body (lines 20-27). -/
def forbiddenBody : JsValue :=
  jsObj [("jsonrpc", .str "2.0"),
         ("error", jsObj [("code", .num (-32000)), ("message", .str "Forbidden: Invalid Origin")]),
         ("id", .null)]

/-- Outcome of the security middleware: reject with a status and body, or
fall through to the endpoint handlers via `next()`. -/
inductive MiddlewareResult where
  | reject : Nat → JsValue → MiddlewareResult
  | next : MiddlewareResult
deriving Repr, DecidableEq

/-- The security middleware: a truthy (non-empty) `Origin` header is
rejected with 403 exactly when the allow-list is non-empty and does not
contain it; authentication is commented out in the source. -/
def securityMiddleware (allowedOriginsEnv : Option String) (origin : Option String) : MiddlewareResult :=
  let allowedOrigins := parseAllowedOrigins allowedOriginsEnv
  match origin with
  | none => .next
  | some o =>
    if o = "" then .next
    else if 0 < allowedOrigins.length ∧ o ∉ allowedOrigins then .reject 403 forbiddenBody
    else .next

/-! ## POST /mcp endpoint handler (lines 203-285) -/

/-- How the handler answered the submitted message. -/
inductive PostResult where
  | badRequestMissingSession : PostResult
  | notFound : PostResult
  | accepted : PostResult
  | ok : JsValue → PostResult
  | blocked : PostResult
  | internalError : PostResult
  | badRequestInvalid : PostResult
  | sseBootstrap : String → PostResult
deriving Repr, DecidableEq

/-- Everything observable about one run of the POST handler: the HTTP
outcome, the registry afterwards, the messages delivered inbound to a
protocol engine (in order), and how many times a pending-request handler
was installed. -/
structure PostOutcome where
  result : PostResult
  sessions : List (String × TransportState)
  delivered : List JsValue
  pendingInstalls : Nat
deriving Repr, DecidableEq

/-- The initialization branch (lines 214-241): on `isInitializeRequest`,
create a transport and engine, register them, open the SSE response (which
is this very POST response, freshly writable), write the priming event,
attach the sink, then deliver the body inbound; otherwise 400.  `freshId`
stands for the generated `uuidv4()`. -/
def handleInit (sessions : List (String × TransportState)) (body : JsValue)
    (emitted : List JsValue) (freshId : String) : PostOutcome :=
  if isInitializeRequest body then
    let transport := TransportState.new freshId
    let res : SinkState := { writableEnded := false, written := [none] }
    let t1 := attachResponse transport res
    let t2 := (runEngine t1 emitted).1
    { result := .sseBootstrap freshId,
      sessions := sessionsSet sessions freshId t2,
      delivered := [body],
      pendingInstalls := 0 }
  else
    { result := .badRequestMissingSession, sessions := sessions,
      delivered := [], pendingInstalls := 0 }

/-- The known-session part of the POST handler (lines 244-284): 404 on an
unknown id; notifications and responses are delivered inbound and answered
202; requests install the pending handler, are delivered inbound, and the
handler awaits the promise — resolved by the first outbound message, 500
when the await throws (`awaitFails`, an environmental failure), suspended
when nothing resolves it; anything else is 400. -/
def handleKnown (sessions : List (String × TransportState)) (sid : String) (body : JsValue)
    (emitted : List JsValue) (awaitFails : Bool) : PostOutcome :=
  match sessionsGet sessions sid with
  | none =>
    { result := .notFound, sessions := sessions, delivered := [], pendingInstalls := 0 }
  | some t =>
    if isNotification body || isResponse body then
      let t2 := (runEngine t emitted).1
      { result := .accepted, sessions := sessionsSet sessions sid t2,
        delivered := [body], pendingInstalls := 0 }
    else if isRequest body then
      let t1 := { t with pendingInstalled := true }
      let r := runEngine t1 emitted
      let sessions2 := sessionsSet sessions sid r.1
      if awaitFails then
        { result := .internalError, sessions := sessions2,
          delivered := [body], pendingInstalls := 1 }
      else
        match resolvedMessage r.2 with
        | some m =>
          { result := .ok m, sessions := sessions2,
            delivered := [body], pendingInstalls := 1 }
        | none =>
          { result := .blocked, sessions := sessions2,
            delivered := [body], pendingInstalls := 1 }
    else
      { result := .badRequestInvalid, sessions := sessions,
        delivered := [], pendingInstalls := 0 }

/-- `app.post("/mcp", ...)`: `const sessionId = req.headers["mcp-session-id"]`
followed by `if (!sessionId)` — a missing header or an empty header value
selects the initialization branch. -/
def handlePost (sessions : List (String × TransportState)) (sessionIdHeader : Option String)
    (body : JsValue) (emitted : List JsValue) (awaitFails : Bool) (freshId : String) : PostOutcome :=
  match sessionIdHeader with
  | none => handleInit sessions body emitted freshId
  | some sid =>
    if sid = "" then handleInit sessions body emitted freshId
    else handleKnown sessions sid body emitted awaitFails

/-! ## Helper lemmas -/

theorem truthy_of_getField_ne_undefined {v : JsValue} {k : String}
    (h : getField v k ≠ .undefined) : v.truthy = true := by
  cases v <;> simp [getField, JsValue.truthy] at h ⊢

theorem getFieldE_ok {v : JsValue} (h : v.truthy = true) (k : String) :
    getFieldE v k = .ok (getField v k) := by
  cases v <;> simp_all [JsValue.truthy, getFieldE]

theorem isRequest_not_notification {v : JsValue} (h : isRequest v = true) :
    isNotification v = false := by
  simp [isRequest] at h
  simp [isNotification, h.1.1, h.1.2, h.2]

theorem sessionsGet_set_self (l : List (String × TransportState)) (sid : String) (t : TransportState) :
    sessionsGet (sessionsSet l sid t) sid = some t := by
  induction l with
  | nil => simp [sessionsSet, sessionsGet]
  | cons p rest ih =>
    obtain ⟨k, v⟩ := p
    by_cases hk : k = sid <;> simp [sessionsSet, sessionsGet, hk, ih]

theorem sessionsSet_keys_of_mem {l : List (String × TransportState)} {sid : String}
    {t0 : TransportState} (h : sessionsGet l sid = some t0) (t : TransportState) :
    (sessionsSet l sid t).map Prod.fst = l.map Prod.fst := by
  induction l with
  | nil => simp [sessionsGet] at h
  | cons p rest ih =>
    obtain ⟨k, v⟩ := p
    by_cases hk : k = sid
    · simp [sessionsSet, hk]
    · simp [sessionsGet, hk] at h
      simp [sessionsSet, hk, ih h]

theorem mem_messageQueue_send {t : TransportState} {m x : JsValue}
    (h : x ∈ (send t m).1.messageQueue) : x ∈ t.messageQueue ∨ x = m := by
  by_cases hp : t.pendingInstalled
  · simp [send, hp] at h
    exact Or.inl h
  · simp [send, hp] at h
    cases hc : t.currentResponse with
    | none =>
      rw [hc] at h
      simp at h
      exact h
    | some s =>
      rw [hc] at h
      by_cases he : s.writableEnded = false <;> simp [he] at h
      · exact Or.inl h
      · exact h

theorem mem_messageQueue_runEngine {ms : List JsValue} :
    ∀ {t : TransportState} {x : JsValue}, x ∈ (runEngine t ms).1.messageQueue →
      x ∈ t.messageQueue ∨ x ∈ ms := by
  induction ms with
  | nil => intro t x h; simp [runEngine] at h; exact Or.inl h
  | cons m rest ih =>
    intro t x h
    simp only [runEngine] at h
    rcases ih h with h1 | h1
    · rcases mem_messageQueue_send h1 with h2 | h2
      · exact Or.inl h2
      · exact Or.inr (by simp [h2])
    · exact Or.inr (by simp [h1])

theorem flushLoop_drains (q : List JsValue) : ∀ (sid : String) (w : List (Option JsValue)),
    flushLoop q.length
      { sessionId := sid, currentResponse := some ⟨false, w⟩,
        messageQueue := q, pendingInstalled := false } =
      { sessionId := sid, currentResponse := some ⟨false, w ++ q.map some⟩,
        messageQueue := [], pendingInstalled := false } := by
  induction q with
  | nil => intro sid w; simp [flushLoop]
  | cons m rest ih =>
    intro sid w
    have step := ih sid (w ++ [some m])
    simp only [List.length_cons, flushLoop, send]
    simp only [List.append_assoc] at step
    simpa using step

/-! ## Concrete fixtures for witnesses and counterexamples -/

/-- An open SSE sink with nothing written yet. -/
def sinkOpen : SinkState := { writableEnded := false, written := [] }

/-- A transport whose pending slot is occupied. -/
def tPend : TransportState :=
  { sessionId := "s", currentResponse := none, messageQueue := [], pendingInstalled := true }

/-- A transport with an open sink attached. -/
def tSink : TransportState :=
  { sessionId := "s", currentResponse := some sinkOpen, messageQueue := [], pendingInstalled := false }

/-- A transport with no sink and no pending handler. -/
def tIdle : TransportState :=
  { sessionId := "s", currentResponse := none, messageQueue := [], pendingInstalled := false }

/-- A plain request message. -/
def reqPing : JsValue := jsObj [("method", .str "ping"), ("id", .num 2)]

/-- An outbound response produced by the engine. -/
def respPong : JsValue := jsObj [("jsonrpc", .str "2.0"), ("id", .num 2), ("result", .str "pong")]

/-- A registry holding one known session `s1`. -/
def reg0 : List (String × TransportState) := [("s1", TransportState.new "s1")]

/-- A notification message. -/
def notifMsg : JsValue := jsObj [("method", .str "note")]

/-- Two queued outbound messages. -/
def msgA : JsValue := jsObj [("method", .str "a")]

/-- Second queued outbound message. -/
def msgB : JsValue := jsObj [("method", .str "b")]

/-- A transport with two messages queued and nothing attached. -/
def tQueued : TransportState :=
  { sessionId := "s", currentResponse := none, messageQueue := [msgA, msgB], pendingInstalled := false }

/-! ## Claims -/

/-- Claim C2: for every call to the transport's outbound `send` with any
message, resolution follows exactly this order — an installed pending
responder receives the message and the slot is cleared (priority over any
sink); otherwise an attached, still-open sink gets the message written as
one SSE event; otherwise the message is appended to the outbound queue. -/
theorem send_resolution_order (t : TransportState) (m : JsValue) :
    (t.pendingInstalled = true →
      send t m = ({ t with pendingInstalled := false }, .toPending m)) ∧
    (t.pendingInstalled = false → ∀ s : SinkState, t.currentResponse = some s →
      s.writableEnded = false →
      send t m =
        ({ t with currentResponse := some { s with written := s.written ++ [some m] } }, .toSink)) ∧
    (t.pendingInstalled = false →
      (∀ s : SinkState, t.currentResponse = some s → s.writableEnded = true) →
      send t m = ({ t with messageQueue := t.messageQueue ++ [m] }, .queued)) := by
  refine ⟨fun hp => by simp [send, hp],
          fun hp s hc hs => by simp [send, hp, hc, hs],
          fun hp hall => ?_⟩
  cases hc : t.currentResponse with
  | none => simp [send, hp, hc]
  | some s => simp [send, hp, hc, hall s hc]

/-- Witness for C2 at concrete transports. -/
theorem send_resolution_order_witness :
    send tPend respPong = ({ tPend with pendingInstalled := false }, .toPending respPong) ∧
    send tSink respPong =
      ({ tSink with
          currentResponse := some { sinkOpen with written := sinkOpen.written ++ [some respPong] } },
        .toSink) ∧
    send tIdle respPong =
      ({ tIdle with messageQueue := tIdle.messageQueue ++ [respPong] }, .queued) :=
  ⟨(send_resolution_order tPend respPong).1 rfl,
   (send_resolution_order tSink respPong).2.1 rfl sinkOpen rfl rfl,
   (send_resolution_order tIdle respPong).2.2 rfl (fun s hs => by simp [tIdle] at hs)⟩

/-- Claim C3: messages enqueued while no sink is attached and no pending
responder is installed are all delivered to the sink by the first
`attachResponse` call, in insertion order, without duplication, leaving the
queue empty. -/
theorem attach_sink_drains_queue (t : TransportState) (s : SinkState)
    (hp : t.pendingInstalled = false) (hr : t.currentResponse = none)
    (hs : s.writableEnded = false) :
    attachResponse t s =
      { t with
          currentResponse := some { s with written := s.written ++ t.messageQueue.map some },
          messageQueue := [] } := by
  obtain ⟨sid, cr, q, p⟩ := t
  obtain ⟨ended, w⟩ := s
  dsimp only at hp hr hs
  subst hp hr hs
  simpa [attachResponse] using flushLoop_drains q sid w

/-- Witness for C3: a queue of two messages is flushed in order. -/
theorem attach_sink_drains_queue_witness :
    attachResponse tQueued sinkOpen =
      { tQueued with
          currentResponse := some
            { sinkOpen with written := sinkOpen.written ++ tQueued.messageQueue.map some },
          messageQueue := [] } :=
  attach_sink_drains_queue tQueued sinkOpen rfl rfl rfl

/-- Claim C7: the four message classifiers are total and pure over
arbitrary input — under JavaScript evaluation semantics where property
access on `null`/`undefined` throws, each classifier always returns
normally (`Except.ok`), and its value is a function of the input alone
(the corresponding pure classifier). -/
theorem classifiers_total_and_pure (v : JsValue) :
    isInitializeRequestE v = .ok (isInitializeRequest v) ∧
    isRequestE v = .ok (isRequest v) ∧
    isNotificationE v = .ok (isNotification v) ∧
    isResponseE v = .ok (isResponse v) := by
  by_cases ht : v.truthy = true
  · cases hm : (getField v "method").isStr <;>
      by_cases hr : getField v "result" = JsValue.undefined <;>
      by_cases he : getField v "error" = JsValue.undefined <;>
        simp [isInitializeRequestE, isInitializeRequest, isRequestE, isRequest,
          isNotificationE, isNotification, isResponseE, isResponse,
          getFieldE_ok ht, ht, hm, hr, he, Bind.bind, Except.bind, Functor.map,
          Except.map, pure, Except.pure]
  · simp only [Bool.not_eq_true] at ht
    simp [isInitializeRequestE, isInitializeRequest, isRequestE, isRequest,
      isNotificationE, isNotification, isResponseE, isResponse, ht]

/-- Claim C1: for every POST whose body reaches the request branch of the
dispatch on a known session, exactly one pending responder is installed,
the body is delivered inbound once, and the HTTP response is 200 with body
the first outbound message the engine produces after delivery — whatever
its id. -/
theorem post_request_replies_first_outbound
    (sessions : List (String × TransportState)) (sid fid : String) (t : TransportState)
    (body m : JsValue) (rest : List JsValue)
    (hsid : sid ≠ "") (hfound : sessionsGet sessions sid = some t)
    (hreq : isRequest body = true) (hresp : isResponse body = false) :
    (handlePost sessions (some sid) body (m :: rest) false fid).result = .ok m ∧
    (handlePost sessions (some sid) body (m :: rest) false fid).pendingInstalls = 1 ∧
    (handlePost sessions (some sid) body (m :: rest) false fid).delivered = [body] := by
  have hnot := isRequest_not_notification hreq
  simp [handlePost, hsid, handleKnown, hfound, hnot, hresp, hreq,
    runEngine, send, resolvedMessage]

/-- Witness for C1: a ping request answered by the engine's pong. -/
theorem post_request_replies_first_outbound_witness :
    (handlePost reg0 (some "s1") reqPing [respPong] false "f").result = .ok respPong ∧
    (handlePost reg0 (some "s1") reqPing [respPong] false "f").pendingInstalls = 1 ∧
    (handlePost reg0 (some "s1") reqPing [respPong] false "f").delivered = [reqPing] :=
  post_request_replies_first_outbound reg0 "s1" "f" (TransportState.new "s1")
    reqPing respPong [] (by decide) (by decide) (by decide) (by decide)

/-- Claim C6: a POST carrying an unknown session identifier is answered
404 and nothing at all happens — no inbound delivery, no pending install,
and the registry is returned unchanged — whatever the body classifies as. -/
theorem unknown_session_not_found
    (sessions : List (String × TransportState)) (sid fid : String) (body : JsValue)
    (emitted : List JsValue) (awaitFails : Bool)
    (hsid : sid ≠ "") (hnone : sessionsGet sessions sid = none) :
    handlePost sessions (some sid) body emitted awaitFails fid =
      { result := .notFound, sessions := sessions, delivered := [], pendingInstalls := 0 } := by
  simp [handlePost, hsid, handleKnown, hnone]

/-- Witness for C6: a notification body POSTed to an unknown session. -/
theorem unknown_session_not_found_witness :
    handlePost [] (some "nope") notifMsg [] false "f" =
      { result := .notFound, sessions := [], delivered := [], pendingInstalls := 0 } :=
  unknown_session_not_found [] "nope" "f" notifMsg [] false (by decide) rfl

/-- Claim C9: when the await in the synchronous request branch fails, the
reply is 500, the body was delivered inbound exactly once and is not
requeued (it never enters the outbound queue), and the session stays in
the registry. -/
theorem await_failure_returns_500
    (sessions : List (String × TransportState)) (sid fid : String) (t : TransportState)
    (body : JsValue) (emitted : List JsValue)
    (hsid : sid ≠ "") (hfound : sessionsGet sessions sid = some t)
    (hreq : isRequest body = true) (hresp : isResponse body = false)
    (hq : body ∉ t.messageQueue) (he : body ∉ emitted) :
    (handlePost sessions (some sid) body emitted true fid).result = .internalError ∧
    (handlePost sessions (some sid) body emitted true fid).delivered = [body] ∧
    ∃ t2, sessionsGet (handlePost sessions (some sid) body emitted true fid).sessions sid = some t2
      ∧ body ∉ t2.messageQueue := by
  have hnot := isRequest_not_notification hreq
  simp only [handlePost, hsid, handleKnown, hfound, hnot, hresp, hreq, if_neg, if_pos,
    Bool.false_or, Bool.or_self, if_true, if_false, ite_true, ite_false]
  refine ⟨by simp [hsid], by simp [hsid], ?_⟩
  refine ⟨(runEngine { t with pendingInstalled := true } emitted).1, by simp [hsid, sessionsGet_set_self], ?_⟩
  intro hmem
  rcases mem_messageQueue_runEngine hmem with h | h
  · exact hq (by simpa using h)
  · exact he h

/-- Witness for C9: the await fails on a ping request. -/
theorem await_failure_returns_500_witness :
    (handlePost reg0 (some "s1") reqPing [respPong] true "f").result = .internalError ∧
    (handlePost reg0 (some "s1") reqPing [respPong] true "f").delivered = [reqPing] ∧
    ∃ t2, sessionsGet (handlePost reg0 (some "s1") reqPing [respPong] true "f").sessions "s1" = some t2
      ∧ reqPing ∉ t2.messageQueue :=
  await_failure_returns_500 reg0 "s1" "f" (TransportState.new "s1") reqPing [respPong]
    (by decide) (by decide) (by decide) (by decide) (by decide) (by decide)

/-- A message that is simultaneously request-shaped and response-shaped:
string `method`, defined `id`, defined `result`. -/
def reqWithResult : JsValue :=
  jsObj [("method", .str "doWork"), ("id", .num 7), ("result", .str "done")]

/-- Counterexample to C4 as stated: `reqWithResult` satisfies both the
request shape and the response shape, yet the POST dispatch handles it as
a Response — 202 Accepted, no pending responder — because the
`isNotification || isResponse` test runs before `isRequest`; it is not
classified as a Request. -/
theorem response_priority_counterexample :
    isRequest reqWithResult = true ∧ isResponse reqWithResult = true ∧
    (handlePost reg0 (some "s1") reqWithResult [] false "f").result = .accepted ∧
    (handlePost reg0 (some "s1") reqWithResult [] false "f").pendingInstalls = 0 := by
  decide

/-- Claim C4 (amended): for every submitted object message having a string
`method`, a defined `id`, and a defined `result` or `error` field on a
known session, the dispatch tests the Response shape before the Request
shape, so the message is handled as a Response: delivered inbound once and
answered 202, with no pending responder installed. -/
theorem response_checked_before_request
    (sessions : List (String × TransportState)) (sid fid : String) (t : TransportState)
    (body : JsValue) (emitted : List JsValue) (awaitFails : Bool)
    (hsid : sid ≠ "") (hfound : sessionsGet sessions sid = some t)
    (hm : (getField body "method").isStr = true)
    (hid : getField body "id" ≠ .undefined)
    (hre : getField body "result" ≠ .undefined ∨ getField body "error" ≠ .undefined) :
    (handlePost sessions (some sid) body emitted awaitFails fid).result = .accepted ∧
    (handlePost sessions (some sid) body emitted awaitFails fid).pendingInstalls = 0 ∧
    (handlePost sessions (some sid) body emitted awaitFails fid).delivered = [body] := by
  have ht : body.truthy = true := by
    refine truthy_of_getField_ne_undefined (k := "method") ?_
    intro h
    rw [h] at hm
    simp [JsValue.isStr] at hm
  have hresp : isResponse body = true := by
    rcases hre with h | h <;> simp [isResponse, ht, hid, h]
  simp [handlePost, hsid, handleKnown, hfound, hresp]

/-- Witness for the amended C4 at the concrete `reqWithResult`. -/
theorem response_checked_before_request_witness :
    (handlePost reg0 (some "s1") reqWithResult [] false "f").result = .accepted ∧
    (handlePost reg0 (some "s1") reqWithResult [] false "f").pendingInstalls = 0 ∧
    (handlePost reg0 (some "s1") reqWithResult [] false "f").delivered = [reqWithResult] :=
  response_checked_before_request reg0 "s1" "f" (TransportState.new "s1") reqWithResult [] false
    (by decide) (by decide) (by decide) (by decide) (Or.inl (by decide))

/-- A body whose `method` is the reserved name but with no `id` at all. -/
def initNoId : JsValue := jsObj [("method", .str "initialize")]

/-- A proper initialize request, `id` included. -/
def initMsg : JsValue := jsObj [("method", .str "initialize"), ("id", .num 1)]

/-- Counterexample to C5 as stated: a body with `method: "initialize"` but
no `id` is not a Request (`isRequest` is false), yet the handler still
creates, registers and SSE-bootstraps a session for it and delivers it
inbound — the code never checks `id` in `isInitializeRequest`. -/
theorem initialize_without_id_creates_session :
    isRequest initNoId = false ∧
    (handlePost [] none initNoId [] false "fresh").result = .sseBootstrap "fresh" ∧
    (sessionsGet (handlePost [] none initNoId [] false "fresh").sessions "fresh").isSome = true ∧
    (handlePost [] none initNoId [] false "fresh").delivered = [initNoId] := by
  decide

/-- Claim C5 (amended): for every POST without a session identifier, a new
session is created, registered and bootstrapped over SSE if and only if
the body is truthy and its `method` field equals `"initialize"` — the
presence of `id` is not required; any other body fails with 400 and
changes nothing. -/
theorem session_creation_iff_initialize_method
    (sessions : List (String × TransportState)) (body : JsValue)
    (emitted : List JsValue) (fid : String) :
    (isInitializeRequest body = true ↔
       body.truthy = true ∧ getField body "method" = .str "initialize") ∧
    (isInitializeRequest body = true →
       (handlePost sessions none body emitted false fid).result = .sseBootstrap fid ∧
       (sessionsGet (handlePost sessions none body emitted false fid).sessions fid).isSome = true ∧
       (handlePost sessions none body emitted false fid).delivered = [body]) ∧
    (isInitializeRequest body = false →
       handlePost sessions none body emitted false fid =
         { result := .badRequestMissingSession, sessions := sessions,
           delivered := [], pendingInstalls := 0 }) := by
  refine ⟨by simp [isInitializeRequest], fun h => ?_, fun h => by simp [handlePost, handleInit, h]⟩
  simp [handlePost, handleInit, h, sessionsGet_set_self]

/-- Witness for the amended C5: a proper initialize request bootstraps a
fresh session. -/
theorem session_creation_iff_initialize_method_witness :
    (handlePost [] none initMsg [] false "fresh2").result = .sseBootstrap "fresh2" ∧
    (sessionsGet (handlePost [] none initMsg [] false "fresh2").sessions "fresh2").isSome = true ∧
    (handlePost [] none initMsg [] false "fresh2").delivered = [initMsg] :=
  (session_creation_iff_initialize_method [] initMsg [] "fresh2").2.1 (by decide)

/-- Counterexample to C8 as stated: with the environment variable unset
the allow-list read from it is empty, so a non-empty Origin is trivially
not on it — yet the middleware lets the request through instead of
rejecting it with 403. -/
theorem empty_allowlist_allows_any_origin :
    ("http://evil.example" ∉ parseAllowedOrigins none) ∧
    securityMiddleware none (some "http://evil.example") = .next := by
  decide

/-- Claim C8 (amended): a request with a non-empty Origin header is
rejected with 403 and the JSON-RPC error body (code -32000) exactly when
the allow-list parsed from the environment variable is non-empty and does
not contain the origin; with an unset or empty variable every origin
passes, and a request with no Origin header is never rejected. -/
theorem origin_validation_403 (env : Option String) (o : String) :
    (o ≠ "" →
       (securityMiddleware env (some o) = .reject 403 forbiddenBody ↔
         parseAllowedOrigins env ≠ [] ∧ o ∉ parseAllowedOrigins env)) ∧
    (o ≠ "" → parseAllowedOrigins env ≠ [] → o ∉ parseAllowedOrigins env →
       securityMiddleware env (some o) = .reject 403 forbiddenBody) ∧
    (o ≠ "" → o ∈ parseAllowedOrigins env → securityMiddleware env (some o) = .next) ∧
    (parseAllowedOrigins env = [] → securityMiddleware env (some o) = .next) ∧
    securityMiddleware env none = .next ∧
    getField (getField forbiddenBody "error") "code" = .num (-32000) := by
  have hrej : ∀ h1 : o ≠ "", parseAllowedOrigins env ≠ [] → o ∉ parseAllowedOrigins env →
      securityMiddleware env (some o) = .reject 403 forbiddenBody := by
    intro h1 h2 h3
    have hlen : 0 < (parseAllowedOrigins env).length := List.length_pos.mpr h2
    simp [securityMiddleware, h1, hlen, h3]
  have hpass : ∀ h1 : o ≠ "", o ∈ parseAllowedOrigins env →
      securityMiddleware env (some o) = .next := by
    intro h1 hin
    simp [securityMiddleware, h1, hin]
  refine ⟨fun h1 => ⟨fun hr => ?_, fun h => hrej h1 h.1 h.2⟩,
          hrej, hpass, fun h => ?_, rfl, by decide⟩
  · by_cases hne : parseAllowedOrigins env = []
    · simp [securityMiddleware, h1, hne] at hr
    · refine ⟨hne, fun hin => ?_⟩
      rw [hpass h1 hin] at hr
      exact absurd hr (by simp)
  · simp [securityMiddleware, h]

/-- Witness for the amended C8: one configured origin — a different one
knocks and is rejected, the configured one passes; with the variable
unset any origin passes. -/
theorem origin_validation_403_witness :
    securityMiddleware (some "https://a.example") (some "https://b.example")
      = .reject 403 forbiddenBody ∧
    securityMiddleware (some "https://a.example") (some "https://a.example") = .next ∧
    securityMiddleware none (some "https://b.example") = .next :=
  ⟨(origin_validation_403 (some "https://a.example") "https://b.example").2.1
      (by decide) (by decide) (by decide),
   (origin_validation_403 (some "https://a.example") "https://a.example").2.2.1
      (by decide) (by decide),
   (origin_validation_403 none "https://b.example").2.2.2.1 (by decide)⟩

/-- A body with the reserved method and a defined `id` that also carries a
`result` field. -/
def initWithResult : JsValue :=
  jsObj [("method", .str "initialize"), ("id", .num 1), ("result", .num 0)]

/-- Counterexample to C10 as stated: on a known session, a body whose
`method` is `"initialize"` and whose `id` is defined but which also
carries a `result` field is not handled as an ordinary Request — the
dispatch's Response test fires first, so it is answered 202 and no
pending responder is installed. -/
theorem known_session_initialize_with_result_counterexample :
    getField initWithResult "method" = .str "initialize" ∧
    getField initWithResult "id" ≠ .undefined ∧
    (handlePost reg0 (some "s1") initWithResult [] false "f").result = .accepted ∧
    (handlePost reg0 (some "s1") initWithResult [] false "f").pendingInstalls = 0 := by
  decide

/-- Claim C10 (amended): on a POST with a known session identifier, a body
whose `method` equals `"initialize"`, whose `id` is defined, and which
carries no defined `result` or `error` field is handled as an ordinary
Request — exactly one pending responder is installed and the body is
delivered inbound — and it never creates a session, never re-registers
(the registry keys are unchanged), and never re-runs the SSE bootstrap:
the reserved-method check is only reached when no session identifier is
supplied. -/
theorem known_session_initialize_is_plain_request
    (sessions : List (String × TransportState)) (sid fid : String) (t : TransportState)
    (body : JsValue) (emitted : List JsValue) (awaitFails : Bool)
    (hsid : sid ≠ "") (hfound : sessionsGet sessions sid = some t)
    (hm : getField body "method" = .str "initialize")
    (hid : getField body "id" ≠ .undefined)
    (hres : getField body "result" = .undefined)
    (herr : getField body "error" = .undefined) :
    (handlePost sessions (some sid) body emitted awaitFails fid).pendingInstalls = 1 ∧
    (handlePost sessions (some sid) body emitted awaitFails fid).delivered = [body] ∧
    (∀ f, (handlePost sessions (some sid) body emitted awaitFails fid).result ≠ .sseBootstrap f) ∧
    (handlePost sessions (some sid) body emitted awaitFails fid).sessions.map Prod.fst =
      sessions.map Prod.fst := by
  have ht : body.truthy = true :=
    truthy_of_getField_ne_undefined (k := "id") hid
  have hreq : isRequest body = true := by
    simp [isRequest, ht, hm, hid, JsValue.isStr]
  have hnot := isRequest_not_notification hreq
  have hresp : isResponse body = false := by simp [isResponse, hres, herr]
  by_cases ha : awaitFails = true
  · simp [handlePost, hsid, handleKnown, hfound, hnot, hresp, hreq, ha,
      sessionsSet_keys_of_mem hfound]
  · simp only [Bool.not_eq_true] at ha
    cases hr : resolvedMessage (runEngine { t with pendingInstalled := true } emitted).2 <;>
      simp [handlePost, hsid, handleKnown, hfound, hnot, hresp, hreq, ha, hr,
        sessionsSet_keys_of_mem hfound]

/-- Witness for the amended C10: an initialize request with `id` on the
known session `s1`. -/
theorem known_session_initialize_is_plain_request_witness :
    (handlePost reg0 (some "s1") initMsg [respPong] false "f").pendingInstalls = 1 ∧
    (handlePost reg0 (some "s1") initMsg [respPong] false "f").delivered = [initMsg] ∧
    (∀ f, (handlePost reg0 (some "s1") initMsg [respPong] false "f").result ≠ .sseBootstrap f) ∧
    (handlePost reg0 (some "s1") initMsg [respPong] false "f").sessions.map Prod.fst =
      reg0.map Prod.fst :=
  known_session_initialize_is_plain_request reg0 "s1" "f" (TransportState.new "s1")
    initMsg [respPong] false
    (by decide) (by decide) (by decide) (by decide) (by decide) (by decide)
